import Mathlib

/-
  Shallow embedding of the Stacks anchored-block / microblock assembler
  (`src/chainstate/stacks/miner.rs`, `impl StacksBlockBuilder`).

  Hashes are modelled as natural numbers.  All cryptographic and I/O
  collaborators that live outside this file of the repository (the VM, the
  hash functions, the trie store) are gathered into an `Ext` record of
  abstract functions; the builder logic itself is translated line by line
  from the source.
-/
namespace StacksMiner

/-- Hashes (`BlockHeaderHash`, `Sha512Trunc256Sum`, `TrieHash`, `Hash160`,
`BurnchainHeaderHash`) are modelled as natural numbers. -/
abbrev Hash := Nat

/-- `TransactionAnchorMode` from the transaction module. -/
inductive TransactionAnchorMode where
  | OnChainOnly
  | OffChainOnly
  | Any
deriving DecidableEq, Repr

/-- A Stacks transaction, reduced to the fields the builder inspects: the
anchor mode.  The `body` field stands for the rest of the payload so that
distinct transactions can be told apart. -/
structure StacksTransaction where
  anchor_mode : TransactionAnchorMode
  body : Nat
deriving DecidableEq, Repr

/-- The error kinds of `chainstate::stacks::Error` that the builder can
produce or forward.  The diagnostic strings of `InvalidStacksTransaction`
are kept verbatim; the formatted message of `InvalidStacksMicroblock` is
elided, keeping the offender hash it carries. -/
inductive Error where
  | BlockTooBigError
  | InvalidStacksTransaction (msg : String)
  | MicroblockStreamTooLongError
  | InvalidStacksMicroblock (offender : Hash)
  | ClarityError (code : Nat)
deriving DecidableEq, Repr

/-- `StacksWorkScore`. -/
structure StacksWorkScore where
  burn : Nat
  height : Nat
deriving DecidableEq, Repr

/-- `StacksWorkScore::initial()`: zero burn and height. -/
def StacksWorkScore.initial : StacksWorkScore := { burn := 0, height := 0 }

/-- `StacksBlockHeader`, reduced to the fields the builder reads or
writes. -/
structure StacksBlockHeader where
  parent_block : Hash
  parent_microblock : Hash
  parent_microblock_sequence : Nat
  total_work : StacksWorkScore
  proof : Nat
  tx_merkle_root : Hash
  state_index_root : Hash
  microblock_pubkey_hash : Hash
deriving DecidableEq, Repr

/-- `StacksMicroblockHeader`.  The `sequence` field is a `u16` in the
source; the builder never increments it past `u16::MAX = 65535`, so a
natural number with that explicit bound is faithful. -/
structure StacksMicroblockHeader where
  version : Nat
  sequence : Nat
  prev_block : Hash
  tx_merkle_root : Hash
  signature : Nat
deriving DecidableEq, Repr

/-- `StacksBlock`. -/
structure StacksBlock where
  header : StacksBlockHeader
  txs : List StacksTransaction
deriving DecidableEq, Repr

/-- `StacksMicroblock`. -/
structure StacksMicroblock where
  header : StacksMicroblockHeader
  txs : List StacksTransaction
deriving DecidableEq, Repr

/-- `StacksHeaderInfo` (the parent chain tip). -/
structure StacksHeaderInfo where
  anchored_header : StacksBlockHeader
  microblock_tail : Option StacksMicroblockHeader
  block_height : Nat
  index_root : Hash
  burn_header_hash : Hash
deriving DecidableEq, Repr

/-- `StacksBlockBuilder` (the in-progress block state machine). -/
structure StacksBlockBuilder where
  chain_tip : StacksHeaderInfo
  header : StacksBlockHeader
  txs : List StacksTransaction
  micro_txs : List StacksTransaction
  bytes_so_far : Nat
  anchored_done : Bool
  prev_microblock_header : StacksMicroblockHeader
  miner_privkey : Nat
  miner_payouts : Option Nat
  miner_id : Nat
deriving DecidableEq, Repr

/-- Modelled from the spec: `MAX_EPOCH_SIZE`, the maximum total serialized
bytes per anchored block (2 MiB; the constant lives in `core`, outside
`src/`). -/
def MAX_EPOCH_SIZE : Nat := 2 * 1024 * 1024

/-- Modelled from the spec: `EMPTY_MICROBLOCK_PARENT_HASH`, the fixed
all-zero 32-byte sentinel for missing parent microblocks (defined outside
`src/`). -/
def EMPTY_MICROBLOCK_PARENT_HASH : Hash := 0

/-- `Sha512Trunc256Sum([0u8; 32])`, the all-zero hash used both as the
zeroed Merkle-root placeholder and as the first-microblock discriminator. -/
def zeroSha512Trunc256 : Hash := 0

/-- The external collaborators of the builder: hash functions, serialization
lengths, the signature scheme and the trie-store path interface.  These are
out-of-scope components in the spec, so they appear as abstract functions. -/
structure Ext where
  txid : StacksTransaction → Hash
  tx_serialize_len : StacksTransaction → Nat
  merkle_root : List Hash → Hash
  block_header_hash : StacksBlockHeader → Hash
  mblock_header_hash : StacksMicroblockHeader → Hash
  sign : StacksMicroblockHeader → Nat → Nat
  pubkey_hash_of_priv : Nat → Hash
  header_serialize_len : StacksBlockHeader → Nat
  get_block_path : Hash → Hash → List String
  make_index_block_hash : Hash → Hash → Hash
  to_hex : Hash → String
  miner_block_burn_header_hash : Hash
  miner_block_header_hash : Hash

/-- Modelled from the spec: `StacksMicroblockHeader::first_unsigned`
(defined in the block module, outside `src/`): sequence 0, chained from a
parent anchored block hash, with the given transaction Merkle root and a
zeroed signature. -/
def StacksMicroblockHeader.first_unsigned (parent_block_hash : Hash)
    (tx_merkle_root : Hash) : StacksMicroblockHeader :=
  { version := 0
    sequence := 0
    prev_block := parent_block_hash
    tx_merkle_root := tx_merkle_root
    signature := 0 }

/-- Modelled from the spec: `StacksMicroblockHeader::from_parent_unsigned`
(defined outside `src/`): fails (StreamTooLong) exactly when the parent
sequence is `u16::MAX = 65535`; otherwise increments the sequence by one
and chains `prev_block` to the parent header hash. -/
def StacksMicroblockHeader.from_parent_unsigned
    (mblock_header_hash : StacksMicroblockHeader → Hash)
    (parent : StacksMicroblockHeader) (tx_merkle_root : Hash) :
    Option StacksMicroblockHeader :=
  if parent.sequence = 65535 then
    none
  else
    some { version := parent.version
           sequence := parent.sequence + 1
           prev_block := mblock_header_hash parent
           tx_merkle_root := tx_merkle_root
           signature := 0 }

/-- `StacksBlockBuilder::try_mine_tx` (miner.rs lines 96-126).  The VM call
`StacksChainState::process_transaction(clarity_tx, tx)` is abstracted by
`vm`: `none` is success, `some e` a forwarded error.  The returned pair is
the builder after the call together with the `Result`. -/
def StacksBlockBuilder.try_mine_tx (E : Ext)
    (vm : StacksTransaction → Option Error)
    (b : StacksBlockBuilder) (tx : StacksTransaction) :
    StacksBlockBuilder × Except Error Unit :=
  if b.bytes_so_far + E.tx_serialize_len tx ≥ MAX_EPOCH_SIZE then
    (b, Except.error Error.BlockTooBigError)
  else
    if b.anchored_done = false then
      if tx.anchor_mode ≠ TransactionAnchorMode.OnChainOnly ∧
          tx.anchor_mode ≠ TransactionAnchorMode.Any then
        (b, Except.error (Error.InvalidStacksTransaction
          "Invalid transaction anchor mode for anchored data"))
      else
        match vm tx with
        | some e => (b, Except.error e)
        | none =>
            ({ b with txs := b.txs ++ [tx],
                      bytes_so_far :=
                        b.bytes_so_far + E.tx_serialize_len tx },
             Except.ok ())
    else
      if tx.anchor_mode ≠ TransactionAnchorMode.OffChainOnly ∧
          tx.anchor_mode ≠ TransactionAnchorMode.Any then
        (b, Except.error (Error.InvalidStacksTransaction
          "Invalid transaction anchor mode for streamed data"))
      else
        match vm tx with
        | some e => (b, Except.error e)
        | none =>
            ({ b with micro_txs := b.micro_txs ++ [tx],
                      bytes_so_far :=
                        b.bytes_so_far + E.tx_serialize_len tx },
             Except.ok ())

/-- `StacksBlockBuilder::mine_anchored_block` (miner.rs lines 131-166).
`state_root_hash` stands for `clarity_tx.get_root_hash()` read at that
instant (after the matured-rewards grant, whose failure is a process
abort and which touches only the Clarity context, not the builder).  The
leading `assert!(!self.anchored_done)` is a process abort, modelled as
`none`. -/
def StacksBlockBuilder.mine_anchored_block (E : Ext) (state_root_hash : Hash)
    (b : StacksBlockBuilder) :
    Option (StacksBlockBuilder × StacksBlock) :=
  if b.anchored_done then
    none
  else
    let txid_vecs := b.txs.map E.txid
    let tx_merkle_root := E.merkle_root txid_vecs
    let header := { b.header with
                    tx_merkle_root := tx_merkle_root
                    state_index_root := state_root_hash }
    let block : StacksBlock := { header := header, txs := b.txs }
    let pmh0 := StacksMicroblockHeader.first_unsigned
      (E.block_header_hash block.header) zeroSha512Trunc256
    let pmh := { pmh0 with prev_block := E.block_header_hash block.header }
    some ({ b with header := header
                   prev_microblock_header := pmh
                   anchored_done := true },
          block)

/-- `StacksBlockBuilder::mine_next_microblock` (miner.rs lines 169-203).
The `sign`/`verify` pair on the fresh header are `unwrap()`ed in the
source (failure with the miner own key is a process abort); signing is
modelled by filling the signature field via `E.sign`.  The returned pair
is the builder after the call together with the `Result`. -/
def StacksBlockBuilder.mine_next_microblock (E : Ext)
    (b : StacksBlockBuilder) :
    StacksBlockBuilder × Except Error StacksMicroblock :=
  match (if b.prev_microblock_header.tx_merkle_root = zeroSha512Trunc256 then
           some (StacksMicroblockHeader.first_unsigned
             b.prev_microblock_header.prev_block
             (E.merkle_root (b.micro_txs.map E.txid)))
         else
           StacksMicroblockHeader.from_parent_unsigned E.mblock_header_hash
             b.prev_microblock_header
             (E.merkle_root (b.micro_txs.map E.txid))) with
  | none => (b, Except.error Error.MicroblockStreamTooLongError)
  | some hdr0 =>
      let hdr := { hdr0 with signature := E.sign hdr0 b.miner_privkey }
      ({ b with prev_microblock_header := hdr, micro_txs := [] },
       Except.ok { header := hdr, txs := b.micro_txs })

/-- `StacksBlockBuilder::set_parent_microblock` (miner.rs lines 90-93). -/
def StacksBlockBuilder.set_parent_microblock (b : StacksBlockBuilder)
    (parent_mblock_hash : Hash) (parent_mblock_seq : Nat) :
    StacksBlockBuilder :=
  { b with header := { b.header with
                       parent_microblock := parent_mblock_hash
                       parent_microblock_sequence := parent_mblock_seq } }

/-- `StacksBlockBuilder::epoch_begin` (miner.rs lines 209-263).  The
database collaborators are abstracted: `rewards_res` is the outcome of
`find_mature_miner_rewards` (behind a `?`), `staging_res` the outcome of
`load_staging_microblock_stream` (behind a `?`, `None` meaning the empty
stream), and `process_mblocks` is
`StacksChainState::process_microblocks_transactions`.  The opened Clarity
context itself is external; the returned pair is the builder after the
call with the success or error outcome. -/
def StacksBlockBuilder.epoch_begin (E : Ext)
    (rewards_res : Except Error (Option Nat))
    (staging_res : Except Error (Option (List StacksMicroblock)))
    (process_mblocks : List StacksMicroblock →
      Except (Error × Hash) (Nat × Nat))
    (b : StacksBlockBuilder) :
    StacksBlockBuilder × Except Error Unit :=
  match rewards_res with
  | Except.error e => (b, Except.error e)
  | Except.ok matured_miner_rewards_opt =>
      let b := { b with miner_payouts := matured_miner_rewards_opt }
      match staging_res with
      | Except.error e => (b, Except.error e)
      | Except.ok staging =>
          let parent_microblocks := staging.getD []
          if parent_microblocks.length = 0 then
            (b.set_parent_microblock EMPTY_MICROBLOCK_PARENT_HASH 0,
             Except.ok ())
          else
            match process_mblocks parent_microblocks with
            | Except.error (_, mblock_header_hash) =>
                (b, Except.error
                  (Error.InvalidStacksMicroblock mblock_header_hash))
            | Except.ok _ =>
                match parent_microblocks.getLast? with
                | some last_mblock =>
                    (b.set_parent_microblock
                      (E.mblock_header_hash last_mblock.header)
                      last_mblock.header.sequence,
                     Except.ok ())
                | none => (b, Except.ok ())

/-- A filesystem path as a list of components. -/
abbrev Path := List String

/-- `PathBuf::set_file_name`: replace the final path component. -/
def set_file_name (p : Path) (name : String) : Path :=
  p.dropLast ++ [name]

/-- `StacksBlockBuilder::epoch_finish` (miner.rs lines 266-287), reduced to
the filesystem rename it performs after `commit_block`: the result is the
`(from, to)` pair handed to `fs::rename`.  Both hashes fed to
`make_index_block_hash` and `get_block_path` are the miner sentinels, not
the block true identity. -/
def StacksBlockBuilder.epoch_finish (E : Ext) (_b : StacksBlockBuilder) :
    Path × Path :=
  let new_burn_hash := E.miner_block_burn_header_hash
  let new_block_hash := E.miner_block_header_hash
  let index_block_hash := E.make_index_block_hash new_burn_hash new_block_hash
  let block_pathbuf := E.get_block_path new_burn_hash new_block_hash
  let mined_block_pathbuf :=
    set_file_name block_pathbuf (E.to_hex index_block_hash ++ ".mined")
  (block_pathbuf, mined_block_pathbuf)

/-- Modelled from the spec: `StacksBlockHeader::from_parent_empty` (defined
in the block module, outside `src/`): fills the parent-derived fields and
leaves `tx_merkle_root` and `state_index_root` zeroed. -/
def StacksBlockHeader.from_parent_empty (E : Ext)
    (parent : StacksBlockHeader) (tail : Option StacksMicroblockHeader)
    (total_work : StacksWorkScore) (proof : Nat) (pubkh : Hash) :
    StacksBlockHeader :=
  { parent_block := E.block_header_hash parent
    parent_microblock :=
      match tail with
      | some t => E.mblock_header_hash t
      | none => EMPTY_MICROBLOCK_PARENT_HASH
    parent_microblock_sequence :=
      match tail with
      | some t => t.sequence
      | none => 0
    total_work := total_work
    proof := proof
    tx_merkle_root := 0
    state_index_root := 0
    microblock_pubkey_hash := pubkh }

/-- Modelled from the spec: `StacksBlockHeader::genesis` (outside `src/`):
all parent fields are the empty sentinels and total work is initial. -/
def StacksBlockHeader.genesis : StacksBlockHeader :=
  { parent_block := EMPTY_MICROBLOCK_PARENT_HASH
    parent_microblock := EMPTY_MICROBLOCK_PARENT_HASH
    parent_microblock_sequence := 0
    total_work := StacksWorkScore.initial
    proof := 0
    tx_merkle_root := 0
    state_index_root := 0
    microblock_pubkey_hash := 0 }

/-- `StacksBlockBuilder::from_parent` (miner.rs lines 53-73).  The
compressed public-key hash derivation `Hash160::from_data(pubk)` is
abstracted as `E.pubkey_hash_of_priv`. -/
def StacksBlockBuilder.from_parent (E : Ext) (miner_id : Nat)
    (parent_chain_tip : StacksHeaderInfo) (total_work : StacksWorkScore)
    (proof : Nat) (microblock_privkey : Nat) : StacksBlockBuilder :=
  let pubkh := E.pubkey_hash_of_priv microblock_privkey
  let header := StacksBlockHeader.from_parent_empty E
    parent_chain_tip.anchored_header parent_chain_tip.microblock_tail
    total_work proof pubkh
  let bytes_so_far := E.header_serialize_len header
  { chain_tip := parent_chain_tip
    header := header
    txs := []
    micro_txs := []
    bytes_so_far := bytes_so_far
    anchored_done := false
    prev_microblock_header := StacksMicroblockHeader.first_unsigned
      EMPTY_MICROBLOCK_PARENT_HASH zeroSha512Trunc256
    miner_privkey := microblock_privkey
    miner_payouts := none
    miner_id := miner_id }

/-- `StacksBlockBuilder::first` (miner.rs lines 75-87). -/
def StacksBlockBuilder.first (E : Ext) (miner_id : Nat)
    (genesis_burn_header_hash : Hash) (proof : Nat)
    (microblock_privkey : Nat) : StacksBlockBuilder :=
  let genesis_chain_tip : StacksHeaderInfo :=
    { anchored_header := StacksBlockHeader.genesis
      microblock_tail := none
      block_height := 0
      index_root := 0
      burn_header_hash := genesis_burn_header_hash }
  let builder := StacksBlockBuilder.from_parent E miner_id genesis_chain_tip
    StacksWorkScore.initial proof microblock_privkey
  { builder with header := { builder.header with
                             parent_block := EMPTY_MICROBLOCK_PARENT_HASH } }

/-- The partition invariant I2/P2: anchored transactions are OnChainOnly or
Any, microblock-stream transactions are OffChainOnly or Any. -/
def partitionInv (b : StacksBlockBuilder) : Prop :=
  (∀ tx ∈ b.txs,
     tx.anchor_mode = TransactionAnchorMode.OnChainOnly ∨
     tx.anchor_mode = TransactionAnchorMode.Any) ∧
  (∀ tx ∈ b.micro_txs,
     tx.anchor_mode = TransactionAnchorMode.OffChainOnly ∨
     tx.anchor_mode = TransactionAnchorMode.Any)

/-- A concrete instantiation of the external collaborators, used by the
witnesses below. -/
def wExt : Ext :=
  { txid := fun tx => tx.body
    tx_serialize_len := fun tx => tx.body + 1
    merkle_root := fun l => List.foldl (fun a h => 31 * a + h + 1) 7 l
    block_header_hash := fun h => h.parent_block + 2 * h.tx_merkle_root + 5
    mblock_header_hash := fun h =>
      100 * h.sequence + h.prev_block + h.tx_merkle_root + 3
    sign := fun h k => h.sequence + 10 * k + 11
    pubkey_hash_of_priv := fun k => k + 1
    header_serialize_len := fun _ => 100
    get_block_path := fun a b =>
      ["chainstate", "blocks", Nat.repr a ++ "-" ++ Nat.repr b]
    make_index_block_hash := fun a b => 1000000 * a + b
    to_hex := fun h => Nat.repr h
    miner_block_burn_header_hash := 1
    miner_block_header_hash := 1 }

/-- A concrete anchored header for the witnesses. -/
def wHeader : StacksBlockHeader :=
  { parent_block := 4
    parent_microblock := 0
    parent_microblock_sequence := 0
    total_work := { burn := 1, height := 1 }
    proof := 9
    tx_merkle_root := 0
    state_index_root := 0
    microblock_pubkey_hash := 8 }

/-- A concrete parent chain tip for the witnesses. -/
def wTip : StacksHeaderInfo :=
  { anchored_header := wHeader
    microblock_tail := none
    block_height := 1
    index_root := 2
    burn_header_hash := 6 }

/-- A concrete dual-anchor-mode transaction for the witnesses. -/
def wTxA : StacksTransaction :=
  { anchor_mode := TransactionAnchorMode.Any, body := 5 }

/-- A concrete builder, mid-tenure, still building the anchored block. -/
def wBuilder : StacksBlockBuilder :=
  { chain_tip := wTip
    header := wHeader
    txs := [wTxA]
    micro_txs := []
    bytes_so_far := 100
    anchored_done := false
    prev_microblock_header :=
      StacksMicroblockHeader.first_unsigned 0 zeroSha512Trunc256
    miner_privkey := 3
    miner_payouts := none
    miner_id := 0 }

/-- The always-succeeding VM oracle used by witnesses. -/
def wVmOk : StacksTransaction → Option Error := fun _ => none

instance (b : StacksBlockBuilder) : Decidable (partitionInv b) := by
  unfold partitionInv
  infer_instance

/-- The post-state and block produced by `mine_anchored_block` on the
concrete witness builder. -/
def wMinedPair : StacksBlockBuilder × StacksBlock :=
  (StacksBlockBuilder.mine_anchored_block wExt 42 wBuilder).getD
    (wBuilder, { header := wHeader, txs := [] })

/-- The post-state of a successful witness call to `try_mine_tx`. -/
def wAfterTx : StacksBlockBuilder :=
  (StacksBlockBuilder.try_mine_tx wExt wVmOk wBuilder wTxA).1

/-- A concrete oversized builder: the next transaction would cross the
epoch size budget. -/
def wBuilderBig : StacksBlockBuilder :=
  { wBuilder with bytes_so_far := MAX_EPOCH_SIZE }

/-- The signed header minted by `mine_next_microblock` when the recorded
previous header is the synthetic first-unsigned placeholder (all-zero
Merkle root). -/
def first_minted_header (E : Ext) (b : StacksBlockBuilder) :
    StacksMicroblockHeader :=
  let hdr0 := StacksMicroblockHeader.first_unsigned
    b.prev_microblock_header.prev_block
    (E.merkle_root (b.micro_txs.map E.txid))
  { hdr0 with signature := E.sign hdr0 b.miner_privkey }

/-- The signed header minted by `mine_next_microblock` when chaining from a
previously minted microblock. -/
def next_minted_header (E : Ext) (b : StacksBlockBuilder) :
    StacksMicroblockHeader :=
  let hdr0 : StacksMicroblockHeader :=
    { version := b.prev_microblock_header.version
      sequence := b.prev_microblock_header.sequence + 1
      prev_block := E.mblock_header_hash b.prev_microblock_header
      tx_merkle_root := E.merkle_root (b.micro_txs.map E.txid)
      signature := 0 }
  { hdr0 with signature := E.sign hdr0 b.miner_privkey }

/-- A concrete builder mid-microblock-stream: the previous minted
microblock has sequence 5 and a non-zero Merkle root. -/
def wBuilderStream : StacksBlockBuilder :=
  { wBuilder with
    anchored_done := true
    txs := []
    micro_txs := [{ anchor_mode := TransactionAnchorMode.OffChainOnly,
                    body := 2 }]
    prev_microblock_header :=
      { version := 0, sequence := 5, prev_block := 9,
        tx_merkle_root := 4, signature := 2 } }

/-- The result of `mine_next_microblock` on the concrete mid-stream
builder. -/
def wStreamMint : StacksBlockBuilder × Except Error StacksMicroblock :=
  StacksBlockBuilder.mine_next_microblock wExt wBuilderStream

/-- The microblock minted in the concrete mid-stream mint (fallback value
unused: the mint succeeds). -/
def wStreamMicroblock : StacksMicroblock :=
  match wStreamMint.2 with
  | Except.ok mb => mb
  | Except.error _ =>
      { header := StacksMicroblockHeader.first_unsigned 0 0, txs := [] }

/-- A concrete builder whose previous minted microblock sits at the
sequence ceiling. -/
def wBuilderMaxSeq : StacksBlockBuilder :=
  { wBuilderStream with
    prev_microblock_header :=
      { version := 0, sequence := 65535, prev_block := 9,
        tx_merkle_root := 4, signature := 2 } }

/-- A concrete post-anchor builder with an empty microblock partition. -/
def wBuilderEmptyMicro : StacksBlockBuilder :=
  { wBuilderStream with micro_txs := [] }

/-- A concrete parent microblock for the C7 witness. -/
def wParentMicroblock : StacksMicroblock :=
  { header := { version := 0, sequence := 3, prev_block := 7,
                tx_merkle_root := 5, signature := 1 },
    txs := [] }

/-- A concrete one-microblock parent stream for the C7 witness. -/
def wParentStream : List StacksMicroblock := [wParentMicroblock]

/-- C1: after `mine_anchored_block`, the builder header carries the Merkle
root of the txids of the anchored partition and the state root read from
the open execution context at that instant, and the returned block carries
exactly this header and those transactions. -/
theorem mine_anchored_block_roots (E : Ext) (state_root : Hash)
    (b b' : StacksBlockBuilder) (blk : StacksBlock)
    (h : b.mine_anchored_block E state_root = some (b', blk)) :
    b'.header.tx_merkle_root = E.merkle_root (b'.txs.map E.txid) ∧
    b'.header.state_index_root = state_root ∧
    blk.header = b'.header ∧ blk.txs = b'.txs := by
  unfold StacksBlockBuilder.mine_anchored_block at h
  split at h
  · exact absurd h (by simp)
  · simp only [Option.some.injEq, Prod.mk.injEq] at h
    obtain ⟨hb, hblk⟩ := h
    subst hb
    subst hblk
    simp

/-- Witness for C1 at the concrete builder. -/
theorem mine_anchored_block_roots_witness :
    StacksBlockBuilder.mine_anchored_block wExt 42 wBuilder =
      some (wMinedPair.1, wMinedPair.2) ∧
    wMinedPair.1.header.state_index_root = 42 :=
  ⟨by decide,
   (mine_anchored_block_roots wExt 42 wBuilder wMinedPair.1 wMinedPair.2
     (by decide)).2.1⟩

/-- C9: `mine_anchored_block` leaves both transaction partitions untouched
(the anchored partition is snapshotted into the returned block, not
cleared), and the only builder fields it mutates are the two header roots,
`prev_microblock_header` and `anchored_done`. -/
theorem mine_anchored_block_frame (E : Ext) (state_root : Hash)
    (b b' : StacksBlockBuilder) (blk : StacksBlock)
    (h : b.mine_anchored_block E state_root = some (b', blk)) :
    b'.txs = b.txs ∧ b'.micro_txs = b.micro_txs ∧ blk.txs = b.txs ∧
    b'.chain_tip = b.chain_tip ∧ b'.bytes_so_far = b.bytes_so_far ∧
    b'.miner_privkey = b.miner_privkey ∧
    b'.miner_payouts = b.miner_payouts ∧ b'.miner_id = b.miner_id ∧
    b'.anchored_done = true ∧
    b'.header = { b.header with
                  tx_merkle_root := b'.header.tx_merkle_root
                  state_index_root := b'.header.state_index_root } := by
  unfold StacksBlockBuilder.mine_anchored_block at h
  split at h
  · exact absurd h (by simp)
  · simp only [Option.some.injEq, Prod.mk.injEq] at h
    obtain ⟨hb, hblk⟩ := h
    subst hb
    subst hblk
    simp

/-- Witness for C9 at the concrete builder. -/
theorem mine_anchored_block_frame_witness :
    StacksBlockBuilder.mine_anchored_block wExt 42 wBuilder =
      some (wMinedPair.1, wMinedPair.2) ∧
    wMinedPair.1.txs = wBuilder.txs ∧
    wMinedPair.1.micro_txs = wBuilder.micro_txs :=
  ⟨by decide,
   (mine_anchored_block_frame wExt 42 wBuilder wMinedPair.1 wMinedPair.2
     (by decide)).1,
   (mine_anchored_block_frame wExt 42 wBuilder wMinedPair.1 wMinedPair.2
     (by decide)).2.1⟩

/-- C3: every successful `try_mine_tx` grows `bytes_so_far` by exactly the
serialized length of the offered transaction and appends the transaction
at the end of the anchored partition (when `anchored_done` is false) or of
the microblock partition (when it is true), leaving the other partition
unchanged — so transactions appear in the block in call order. -/
theorem try_mine_tx_success_effects (E : Ext)
    (vm : StacksTransaction → Option Error)
    (b b' : StacksBlockBuilder) (tx : StacksTransaction)
    (h : b.try_mine_tx E vm tx = (b', Except.ok ())) :
    b'.bytes_so_far = b.bytes_so_far + E.tx_serialize_len tx ∧
    (b.anchored_done = false →
       b'.txs = b.txs ++ [tx] ∧ b'.micro_txs = b.micro_txs) ∧
    (b.anchored_done = true →
       b'.micro_txs = b.micro_txs ++ [tx] ∧ b'.txs = b.txs) := by
  unfold StacksBlockBuilder.try_mine_tx at h
  split at h
  · simp at h
  · split at h
    case isTrue hdone =>
      split at h
      · simp at h
      · split at h
        · simp at h
        · injection h with hb hr
          subst hb
          simp_all
    case isFalse hdone =>
      split at h
      · simp at h
      · split at h
        · simp at h
        · injection h with hb hr
          subst hb
          simp_all

/-- Witness for C3 at the concrete builder. -/
theorem try_mine_tx_success_effects_witness :
    StacksBlockBuilder.try_mine_tx wExt wVmOk wBuilder wTxA =
      (wAfterTx, Except.ok ()) ∧
    wAfterTx.bytes_so_far =
      wBuilder.bytes_so_far + wExt.tx_serialize_len wTxA :=
  ⟨rfl,
   (try_mine_tx_success_effects wExt wVmOk wBuilder wAfterTx wTxA rfl).1⟩

/-- C4: whenever `try_mine_tx` errors — `BlockTooBigError` when
`bytes_so_far` plus the serialized length reaches `MAX_EPOCH_SIZE`,
`InvalidStacksTransaction` (invalid anchor mode) when the anchor mode does
not match the current partition, or a VM error forwarded unchanged — the
builder is returned exactly as it was before the call. -/
theorem try_mine_tx_error_frame (E : Ext)
    (vm : StacksTransaction → Option Error)
    (b : StacksBlockBuilder) (tx : StacksTransaction) :
    (∀ b' e, b.try_mine_tx E vm tx = (b', Except.error e) → b' = b) ∧
    (b.bytes_so_far + E.tx_serialize_len tx ≥ MAX_EPOCH_SIZE →
       b.try_mine_tx E vm tx = (b, Except.error Error.BlockTooBigError)) ∧
    (b.bytes_so_far + E.tx_serialize_len tx < MAX_EPOCH_SIZE →
     b.anchored_done = false →
     tx.anchor_mode ≠ TransactionAnchorMode.OnChainOnly →
     tx.anchor_mode ≠ TransactionAnchorMode.Any →
       b.try_mine_tx E vm tx = (b, Except.error
         (Error.InvalidStacksTransaction
           "Invalid transaction anchor mode for anchored data"))) ∧
    (b.bytes_so_far + E.tx_serialize_len tx < MAX_EPOCH_SIZE →
     b.anchored_done = true →
     tx.anchor_mode ≠ TransactionAnchorMode.OffChainOnly →
     tx.anchor_mode ≠ TransactionAnchorMode.Any →
       b.try_mine_tx E vm tx = (b, Except.error
         (Error.InvalidStacksTransaction
           "Invalid transaction anchor mode for streamed data"))) ∧
    (∀ e, b.bytes_so_far + E.tx_serialize_len tx < MAX_EPOCH_SIZE →
       vm tx = some e →
       ((b.anchored_done = false ∧
           (tx.anchor_mode = TransactionAnchorMode.OnChainOnly ∨
            tx.anchor_mode = TransactionAnchorMode.Any)) ∨
        (b.anchored_done = true ∧
           (tx.anchor_mode = TransactionAnchorMode.OffChainOnly ∨
            tx.anchor_mode = TransactionAnchorMode.Any))) →
       b.try_mine_tx E vm tx = (b, Except.error e)) := by
  refine ⟨?_, ?_, ?_, ?_, ?_⟩
  · intro b' e h
    unfold StacksBlockBuilder.try_mine_tx at h
    split at h
    · simp only [Prod.mk.injEq] at h
      exact h.1.symm
    · split at h
      · split at h
        · simp only [Prod.mk.injEq] at h
          exact h.1.symm
        · split at h
          · simp only [Prod.mk.injEq] at h
            exact h.1.symm
          · simp at h
      · split at h
        · simp only [Prod.mk.injEq] at h
          exact h.1.symm
        · split at h
          · simp only [Prod.mk.injEq] at h
            exact h.1.symm
          · simp at h
  · intro hbig
    unfold StacksBlockBuilder.try_mine_tx
    simp [hbig]
  · intro hsmall hdone h1 h2
    unfold StacksBlockBuilder.try_mine_tx
    rw [if_neg (by omega), if_pos hdone, if_pos ⟨h1, h2⟩]
  · intro hsmall hdone h1 h2
    unfold StacksBlockBuilder.try_mine_tx
    rw [if_neg (by omega), if_neg (by simp [hdone]), if_pos ⟨h1, h2⟩]
  · intro e hsmall hvm hmode
    unfold StacksBlockBuilder.try_mine_tx
    rcases hmode with ⟨hdone, hm⟩ | ⟨hdone, hm⟩
    · rw [if_neg (by omega), if_pos hdone, if_neg (by tauto), hvm]
    · rw [if_neg (by omega), if_neg (by simp [hdone]), if_neg (by tauto),
        hvm]

/-- Witness for C4: the oversized call fails with `BlockTooBigError` and
returns the builder unchanged. -/
theorem try_mine_tx_error_frame_witness :
    StacksBlockBuilder.try_mine_tx wExt wVmOk wBuilderBig wTxA =
      (wBuilderBig, Except.error Error.BlockTooBigError) :=
  (try_mine_tx_error_frame wExt wVmOk wBuilderBig wTxA).2.1 (by decide)

/-- Characterization of `mine_next_microblock` in the first-microblock
case. -/
theorem mine_next_microblock_first_eq (E : Ext) (b : StacksBlockBuilder)
    (hz : b.prev_microblock_header.tx_merkle_root = zeroSha512Trunc256) :
    b.mine_next_microblock E =
      ({ b with prev_microblock_header := first_minted_header E b,
                micro_txs := [] },
       Except.ok { header := first_minted_header E b,
                   txs := b.micro_txs }) := by
  unfold StacksBlockBuilder.mine_next_microblock
  rw [if_pos hz]
  rfl

/-- Characterization of `mine_next_microblock` when chaining from a
previously minted microblock without sequence overflow. -/
theorem mine_next_microblock_next_eq (E : Ext) (b : StacksBlockBuilder)
    (hz : ¬ b.prev_microblock_header.tx_merkle_root = zeroSha512Trunc256)
    (hs : ¬ b.prev_microblock_header.sequence = 65535) :
    b.mine_next_microblock E =
      ({ b with prev_microblock_header := next_minted_header E b,
                micro_txs := [] },
       Except.ok { header := next_minted_header E b,
                   txs := b.micro_txs }) := by
  unfold StacksBlockBuilder.mine_next_microblock
    StacksMicroblockHeader.from_parent_unsigned
  rw [if_neg hz, if_neg hs]
  rfl

/-- Characterization of `mine_next_microblock` on sequence overflow. -/
theorem mine_next_microblock_overflow_eq (E : Ext) (b : StacksBlockBuilder)
    (hz : ¬ b.prev_microblock_header.tx_merkle_root = zeroSha512Trunc256)
    (hs : b.prev_microblock_header.sequence = 65535) :
    b.mine_next_microblock E =
      (b, Except.error Error.MicroblockStreamTooLongError) := by
  unfold StacksBlockBuilder.mine_next_microblock
    StacksMicroblockHeader.from_parent_unsigned
  rw [if_neg hz, if_pos hs]

/-- C5: every builder operation preserves the partition invariant (anchored
transactions are OnChainOnly or Any, microblock-stream transactions are
OffChainOnly or Any), and `try_mine_tx` rejects a violating transaction
with the invalid-anchor-mode error. -/
theorem builder_partition_invariant (E : Ext)
    (vm : StacksTransaction → Option Error)
    (rewards_res : Except Error (Option Nat))
    (staging_res : Except Error (Option (List StacksMicroblock)))
    (process_mblocks : List StacksMicroblock →
      Except (Error × Hash) (Nat × Nat))
    (miner_id : Nat) (tip : StacksHeaderInfo) (w : StacksWorkScore)
    (proof pk : Nat) (state_root : Hash)
    (b : StacksBlockBuilder) (tx : StacksTransaction)
    (hinv : partitionInv b) :
    partitionInv (StacksBlockBuilder.from_parent E miner_id tip w proof pk) ∧
    partitionInv (b.try_mine_tx E vm tx).1 ∧
    (b.anchored_done = false →
     tx.anchor_mode ≠ TransactionAnchorMode.OnChainOnly →
     tx.anchor_mode ≠ TransactionAnchorMode.Any →
     b.bytes_so_far + E.tx_serialize_len tx < MAX_EPOCH_SIZE →
       (b.try_mine_tx E vm tx).2 = Except.error
         (Error.InvalidStacksTransaction
           "Invalid transaction anchor mode for anchored data")) ∧
    (b.anchored_done = true →
     tx.anchor_mode ≠ TransactionAnchorMode.OffChainOnly →
     tx.anchor_mode ≠ TransactionAnchorMode.Any →
     b.bytes_so_far + E.tx_serialize_len tx < MAX_EPOCH_SIZE →
       (b.try_mine_tx E vm tx).2 = Except.error
         (Error.InvalidStacksTransaction
           "Invalid transaction anchor mode for streamed data")) ∧
    (∀ b' blk, b.mine_anchored_block E state_root = some (b', blk) →
       partitionInv b') ∧
    partitionInv (b.mine_next_microblock E).1 ∧
    partitionInv
      (b.epoch_begin E rewards_res staging_res process_mblocks).1 := by
  obtain ⟨hanc, hmic⟩ := hinv
  refine ⟨?_, ?_, ?_, ?_, ?_, ?_, ?_⟩
  · constructor <;> intro t ht <;>
      simp [StacksBlockBuilder.from_parent] at ht
  · unfold StacksBlockBuilder.try_mine_tx
    split
    · exact ⟨hanc, hmic⟩
    · split
      case isTrue hdone =>
        split
        · exact ⟨hanc, hmic⟩
        case isFalse hmode =>
          rcases vm tx with - | -
          · constructor
            · intro t ht
              simp only [List.mem_append, List.mem_singleton] at ht
              rcases ht with ht | ht
              · exact hanc t ht
              · rw [ht]
                by_cases hm :
                    tx.anchor_mode = TransactionAnchorMode.OnChainOnly
                · exact Or.inl hm
                · right
                  by_contra hm2
                  exact hmode ⟨hm, hm2⟩
            · exact hmic
          · exact ⟨hanc, hmic⟩
      case isFalse hdone =>
        split
        · exact ⟨hanc, hmic⟩
        case isFalse hmode =>
          rcases vm tx with - | -
          · constructor
            · exact hanc
            · intro t ht
              simp only [List.mem_append, List.mem_singleton] at ht
              rcases ht with ht | ht
              · exact hmic t ht
              · rw [ht]
                by_cases hm :
                    tx.anchor_mode = TransactionAnchorMode.OffChainOnly
                · exact Or.inl hm
                · right
                  by_contra hm2
                  exact hmode ⟨hm, hm2⟩
          · exact ⟨hanc, hmic⟩
  · intro hdone h1 h2 hsmall
    unfold StacksBlockBuilder.try_mine_tx
    rw [if_neg (by omega), if_pos hdone, if_pos ⟨h1, h2⟩]
  · intro hdone h1 h2 hsmall
    unfold StacksBlockBuilder.try_mine_tx
    rw [if_neg (by omega), if_neg (by simp [hdone]), if_pos ⟨h1, h2⟩]
  · intro b' blk h
    unfold StacksBlockBuilder.mine_anchored_block at h
    split at h
    · exact absurd h (by simp)
    · injection h with h
      injection h with hb hblk
      subst hb
      exact ⟨hanc, hmic⟩
  · by_cases hz :
        b.prev_microblock_header.tx_merkle_root = zeroSha512Trunc256
    · rw [mine_next_microblock_first_eq E b hz]
      exact ⟨hanc, by intro t ht; simp at ht⟩
    · by_cases hs : b.prev_microblock_header.sequence = 65535
      · rw [mine_next_microblock_overflow_eq E b hz hs]
        exact ⟨hanc, hmic⟩
      · rw [mine_next_microblock_next_eq E b hz hs]
        exact ⟨hanc, by intro t ht; simp at ht⟩
  · unfold StacksBlockBuilder.epoch_begin
    rcases rewards_res with - | rw
    · exact ⟨hanc, hmic⟩
    · rcases staging_res with - | st
      · exact ⟨hanc, hmic⟩
      · simp only []
        split
        · exact ⟨hanc, hmic⟩
        · split
          · exact ⟨hanc, hmic⟩
          · split
            · exact ⟨hanc, hmic⟩
            · exact ⟨hanc, hmic⟩

/-- Witness for C5 at the concrete builder. -/
theorem builder_partition_invariant_witness :
    partitionInv wBuilder ∧
    partitionInv (wBuilder.try_mine_tx wExt wVmOk wTxA).1 :=
  ⟨by decide,
   (builder_partition_invariant wExt wVmOk (Except.ok none)
     (Except.ok none) (fun _ => Except.ok (0, 0)) 0 wTip
     StacksWorkScore.initial 0 0 0 wBuilder wTxA (by decide)).2.1⟩

/-- C6: a successful `mine_next_microblock` chains correctly: when the
recorded previous header is a genuinely minted microblock (non-zero Merkle
root, the discriminator the source uses), the new sequence is exactly one
more than the previous sequence and `prev_block` is the previous
microblock hash, so the recorded sequence strictly increases; when the
recorded previous header is the placeholder installed by
`mine_anchored_block` (all-zero Merkle root), the minted microblock has
sequence 0 and chains from the anchored block hash recorded in the
placeholder.  The final conjunct shows `mine_anchored_block` installs
exactly that placeholder, carrying the anchored block hash. -/
theorem mine_next_microblock_sequence_chain (E : Ext)
    (b b' : StacksBlockBuilder) (mb : StacksMicroblock)
    (h : b.mine_next_microblock E = (b', Except.ok mb)) :
    b'.prev_microblock_header = mb.header ∧
    (b.prev_microblock_header.tx_merkle_root = zeroSha512Trunc256 →
       mb.header.sequence = 0 ∧
       mb.header.prev_block = b.prev_microblock_header.prev_block) ∧
    (b.prev_microblock_header.tx_merkle_root ≠ zeroSha512Trunc256 →
       mb.header.sequence = b.prev_microblock_header.sequence + 1 ∧
       mb.header.prev_block =
         E.mblock_header_hash b.prev_microblock_header ∧
       b.prev_microblock_header.sequence <
         b'.prev_microblock_header.sequence) ∧
    (∀ (b0 b1 : StacksBlockBuilder) (state_root : Hash)
       (blk : StacksBlock),
       b0.mine_anchored_block E state_root = some (b1, blk) →
       b1.prev_microblock_header.tx_merkle_root = zeroSha512Trunc256 ∧
       b1.prev_microblock_header.prev_block =
         E.block_header_hash blk.header) := by
  refine ⟨?_, ?_, ?_, ?_⟩
  · by_cases hz :
        b.prev_microblock_header.tx_merkle_root = zeroSha512Trunc256
    · rw [mine_next_microblock_first_eq E b hz] at h
      injection h with hb hr
      injection hr with hr
      rw [← hb, ← hr]
    · by_cases hs : b.prev_microblock_header.sequence = 65535
      · rw [mine_next_microblock_overflow_eq E b hz hs] at h
        simp at h
      · rw [mine_next_microblock_next_eq E b hz hs] at h
        injection h with hb hr
        injection hr with hr
        rw [← hb, ← hr]
  · intro hz
    rw [mine_next_microblock_first_eq E b hz] at h
    injection h with hb hr
    injection hr with hr
    rw [← hr]
    exact ⟨rfl, rfl⟩
  · intro hz
    by_cases hs : b.prev_microblock_header.sequence = 65535
    · rw [mine_next_microblock_overflow_eq E b hz hs] at h
      simp at h
    · rw [mine_next_microblock_next_eq E b hz hs] at h
      injection h with hb hr
      injection hr with hr
      rw [← hb, ← hr]
      refine ⟨rfl, rfl, ?_⟩
      show b.prev_microblock_header.sequence <
        (next_minted_header E b).sequence
      simp only [next_minted_header]
      omega
  · intro b0 b1 state_root blk hmine
    unfold StacksBlockBuilder.mine_anchored_block at hmine
    split at hmine
    · exact absurd hmine (by simp)
    · injection hmine with hmine
      injection hmine with hb hblk
      rw [← hb, ← hblk]
      exact ⟨rfl, rfl⟩

/-- Witness for C6 at the concrete mid-stream builder: the minted sequence
is 6 = 5 + 1. -/
theorem mine_next_microblock_sequence_chain_witness :
    StacksBlockBuilder.mine_next_microblock wExt wBuilderStream =
      (wStreamMint.1, Except.ok wStreamMicroblock) ∧
    wStreamMicroblock.header.sequence =
      wBuilderStream.prev_microblock_header.sequence + 1 :=
  ⟨rfl,
   ((mine_next_microblock_sequence_chain wExt wBuilderStream wStreamMint.1
     wStreamMicroblock rfl).2.2.1 (by decide)).1⟩

/-- C8: `mine_next_microblock` fails with `MicroblockStreamTooLongError`
when the previous minted microblock header (non-zero Merkle root) has
sequence `u16::MAX = 65535`; any failed mint returns the builder — hence
the microblock partition — unchanged, and `micro_txs` is cleared only by a
successful mint. -/
theorem mine_next_microblock_overflow_and_retry (E : Ext)
    (b : StacksBlockBuilder) :
    (b.prev_microblock_header.tx_merkle_root ≠ zeroSha512Trunc256 →
     b.prev_microblock_header.sequence = 65535 →
       b.mine_next_microblock E =
         (b, Except.error Error.MicroblockStreamTooLongError)) ∧
    (∀ b' e, b.mine_next_microblock E = (b', Except.error e) →
       b' = b) ∧
    (∀ b' mb, b.mine_next_microblock E = (b', Except.ok mb) →
       b'.micro_txs = [] ∧ mb.txs = b.micro_txs) := by
  refine ⟨?_, ?_, ?_⟩
  · intro hz hs
    exact mine_next_microblock_overflow_eq E b hz hs
  · intro b' e h
    by_cases hz :
        b.prev_microblock_header.tx_merkle_root = zeroSha512Trunc256
    · rw [mine_next_microblock_first_eq E b hz] at h
      simp at h
    · by_cases hs : b.prev_microblock_header.sequence = 65535
      · rw [mine_next_microblock_overflow_eq E b hz hs] at h
        injection h with hb hr
        exact hb.symm
      · rw [mine_next_microblock_next_eq E b hz hs] at h
        simp at h
  · intro b' mb h
    by_cases hz :
        b.prev_microblock_header.tx_merkle_root = zeroSha512Trunc256
    · rw [mine_next_microblock_first_eq E b hz] at h
      injection h with hb hr
      injection hr with hr
      rw [← hb, ← hr]
      exact ⟨rfl, rfl⟩
    · by_cases hs : b.prev_microblock_header.sequence = 65535
      · rw [mine_next_microblock_overflow_eq E b hz hs] at h
        simp at h
      · rw [mine_next_microblock_next_eq E b hz hs] at h
        injection h with hb hr
        injection hr with hr
        rw [← hb, ← hr]
        exact ⟨rfl, rfl⟩

/-- Witness for C8: at the ceiling the mint fails with the stream-too-long
error and the builder (hence `micro_txs`) is unchanged. -/
theorem mine_next_microblock_overflow_and_retry_witness :
    StacksBlockBuilder.mine_next_microblock wExt wBuilderMaxSeq =
      (wBuilderMaxSeq, Except.error Error.MicroblockStreamTooLongError) :=
  (mine_next_microblock_overflow_and_retry wExt wBuilderMaxSeq).1
    (by decide) (by decide)

/-- C10: `mine_next_microblock` needs no pending transactions: with an
empty microblock partition (and no sequence overflow) it succeeds and
returns a microblock with zero transactions whose header Merkle root is
the Merkle root of the empty leaf list. -/
theorem mine_next_microblock_empty_stream (E : Ext)
    (b : StacksBlockBuilder) (hempty : b.micro_txs = [])
    (hnol : b.prev_microblock_header.tx_merkle_root = zeroSha512Trunc256 ∨
            b.prev_microblock_header.sequence ≠ 65535) :
    (b.mine_next_microblock E).2 = Except.ok
      { header := (b.mine_next_microblock E).1.prev_microblock_header,
        txs := [] } ∧
    (b.mine_next_microblock E).1.prev_microblock_header.tx_merkle_root =
      E.merkle_root [] := by
  by_cases hz :
      b.prev_microblock_header.tx_merkle_root = zeroSha512Trunc256
  · rw [mine_next_microblock_first_eq E b hz]
    refine ⟨?_, ?_⟩
    · rw [hempty]
    · show (first_minted_header E b).tx_merkle_root = E.merkle_root []
      unfold first_minted_header StacksMicroblockHeader.first_unsigned
      rw [hempty]
      rfl
  · have hs : ¬ b.prev_microblock_header.sequence = 65535 := by
      rcases hnol with hnol | hnol
      · exact absurd hnol hz
      · exact hnol
    rw [mine_next_microblock_next_eq E b hz hs]
    refine ⟨?_, ?_⟩
    · rw [hempty]
    · show (next_minted_header E b).tx_merkle_root = E.merkle_root []
      unfold next_minted_header
      rw [hempty]
      rfl

/-- Witness for C10: the empty mint succeeds with zero transactions and
the empty-leaf Merkle root. -/
theorem mine_next_microblock_empty_stream_witness :
    (wBuilderEmptyMicro.mine_next_microblock wExt).2 = Except.ok
      { header := (wBuilderEmptyMicro.mine_next_microblock
          wExt).1.prev_microblock_header,
        txs := [] } ∧
    (wBuilderEmptyMicro.mine_next_microblock
        wExt).1.prev_microblock_header.tx_merkle_root =
      wExt.merkle_root [] :=
  mine_next_microblock_empty_stream wExt wBuilderEmptyMicro (by decide)
    (by decide)

/-- C7: `epoch_begin` with an empty (or absent) parent microblock stream
sets `parent_microblock` to the empty sentinel with sequence 0; with a
non-empty stream that replays successfully it sets them to the last
microblock hash and sequence; and when replay fails it returns
`InvalidStacksMicroblock` carrying the offending microblock hash. -/
theorem epoch_begin_parent_microblock (E : Ext)
    (rewards : Option Nat)
    (staging : Option (List StacksMicroblock))
    (process_mblocks : List StacksMicroblock →
      Except (Error × Hash) (Nat × Nat))
    (b : StacksBlockBuilder) :
    (staging.getD [] = [] →
       b.epoch_begin E (Except.ok rewards) (Except.ok staging)
           process_mblocks =
         (({ b with miner_payouts := rewards
            } : StacksBlockBuilder).set_parent_microblock
            EMPTY_MICROBLOCK_PARENT_HASH 0,
          Except.ok ())) ∧
    (∀ mbs last_mblock val, staging = some mbs →
       mbs.getLast? = some last_mblock →
       process_mblocks mbs = Except.ok val →
       b.epoch_begin E (Except.ok rewards) (Except.ok staging)
           process_mblocks =
         (({ b with miner_payouts := rewards
            } : StacksBlockBuilder).set_parent_microblock
            (E.mblock_header_hash last_mblock.header)
            last_mblock.header.sequence,
          Except.ok ())) ∧
    (∀ mbs e offender, staging = some mbs → mbs ≠ [] →
       process_mblocks mbs = Except.error (e, offender) →
       b.epoch_begin E (Except.ok rewards) (Except.ok staging)
           process_mblocks =
         ({ b with miner_payouts := rewards },
          Except.error (Error.InvalidStacksMicroblock offender))) := by
  refine ⟨?_, ?_, ?_⟩
  · intro hempty
    rcases staging with - | l
    · rfl
    · simp only [Option.getD_some] at hempty
      subst hempty
      rfl
  · intro mbs last_mblock val hst hlast hproc
    subst hst
    rcases mbs with - | ⟨m, rest⟩
    · exact absurd hlast (by simp)
    · simp [StacksBlockBuilder.epoch_begin, hproc, hlast,
        StacksBlockBuilder.set_parent_microblock]
  · intro mbs e offender hst hne hproc
    subst hst
    rcases mbs with - | ⟨m, rest⟩
    · exact absurd rfl hne
    · simp [StacksBlockBuilder.epoch_begin, hproc]

/-- Witness for C7: with a one-microblock parent stream that replays
successfully, the header records that microblock hash and sequence. -/
theorem epoch_begin_parent_microblock_witness :
    StacksBlockBuilder.epoch_begin wExt (Except.ok (some 17))
        (Except.ok (some wParentStream)) (fun _ => Except.ok (0, 0))
        wBuilder =
      (({ wBuilder with miner_payouts := some 17
         } : StacksBlockBuilder).set_parent_microblock
         (wExt.mblock_header_hash wParentMicroblock.header)
         wParentMicroblock.header.sequence,
       Except.ok ()) :=
  (epoch_begin_parent_microblock wExt (some 17) (some wParentStream)
    (fun _ => Except.ok (0, 0)) wBuilder).2.1 wParentStream
    wParentMicroblock (0, 0) rfl (by decide) rfl

/-- C2 (amended): `epoch_finish` renames the persisted trie artifact from
its sentinel-addressed path to a `.mined`-suffixed file name keyed by the
index block hash of the sentinel pair
(`MINER_BLOCK_BURN_HEADER_HASH`, `MINER_BLOCK_HEADER_HASH`), not by the
mined block true `index_block_id` — the true burn header hash is unknown
at that point. -/
theorem epoch_finish_rename_sentinel_keyed (E : Ext)
    (b : StacksBlockBuilder) :
    b.epoch_finish E =
      (E.get_block_path E.miner_block_burn_header_hash
         E.miner_block_header_hash,
       set_file_name
         (E.get_block_path E.miner_block_burn_header_hash
            E.miner_block_header_hash)
         (E.to_hex (E.make_index_block_hash E.miner_block_burn_header_hash
            E.miner_block_header_hash) ++ ".mined")) := rfl

/-- Counterexample to C2 as stated: for a mined block whose actual burn
header hash is 7 and whose actual block hash is 8 (while the sentinels are
both 1, as in `wExt`), the `.mined` file name produced by `epoch_finish`
is keyed by the sentinel index hash 1000001, not by the true
`index_block_id` 7000008 = H(burn_id, block_id) of the block. -/
theorem epoch_finish_not_true_id_keyed :
    (StacksBlockBuilder.epoch_finish wExt wBuilder).2.getLast? ≠
      some (wExt.to_hex (wExt.make_index_block_hash 7 8) ++ ".mined") := by
  decide

end StacksMiner
